import Mathlib

/-!
Verification development for the Notion pantry MCP server.

The development shallowly embeds the two logic modules of the repository:

* the unit-conversion module (`normalizeUnit`, `convertUnit`, and the
  `convertCookingUnits` tool) from `src/tools/unitConversionTools.ts`
  (file `src/unnamed/part_002`), and
* the pantry/shopping-list reconciliation operations from
  `src/tools/pantryTools.ts` and `NotionPantryService`
  (`updatePantryItems`, `updatePantryAfterCooking`, `addPantryItem`,
  `addPurchasedItemsToPantry`, `updatePantryWithUsedItems`,
  `removeExpiredItems`, `NotionPantryService.updatePantryForRecipe`).

JavaScript numbers are modelled as rationals (ℚ); every concrete value in
the code is an exact decimal, so ℚ is faithful for all inputs considered
here.  Notion I/O is modelled as explicit state passing over in-memory
lists of records; page creation is modelled with a fresh-id counter.
-/

namespace Pantry

section
/- Batteries marks the rational-number kernel operations `@[irreducible]`,
which blocks `decide` on concrete rational computations; restore
semireducibility locally so concrete runs of the embedded code reduce. -/
attribute [local semireducible] Rat.ofScientific Rat.mul Rat.inv Rat.add Rat.sub

/-- JavaScript `String.prototype.toLowerCase`, as a structural map over
the character list (the inputs here are ASCII). -/
def jsToLower (s : String) : String := ⟨s.data.map Char.toLower⟩

/-- JavaScript `String.prototype.trim`: drop whitespace from both ends. -/
def jsTrim (s : String) : String :=
  ⟨((s.data.dropWhile Char.isWhitespace).reverse.dropWhile Char.isWhitespace).reverse⟩

/-- Canonicalize a free-text unit string, from `normalizeUnit`
(`src/unnamed/part_002`, lines 60-94).  The source lower-cases and trims
the input and then compares against fixed alias sets, returning the input
unchanged when no alias set matches. -/
def normalizeUnit (unit : String) : String :=
  let u := jsTrim (jsToLower unit)
  if ["tablespoon", "tablespoons", "tbsp", "tbs", "tb"].contains u then "tbsp"
  else if ["teaspoon", "teaspoons", "tsp", "ts"].contains u then "tsp"
  else if ["cup", "cups", "c"].contains u then "cup"
  else if ["fluid ounce", "fluid oz", "fl oz", "fl. oz."].contains u then "oz"
  else if ["pint", "pints", "pt"].contains u then "pint"
  else if ["quart", "quarts", "qt"].contains u then "quart"
  else if ["gallon", "gallons", "gal"].contains u then "gallon"
  else if ["milliliter", "milliliters", "ml"].contains u then "ml"
  else if ["liter", "liters", "l"].contains u then "liter"
  else if ["ounce", "ounces", "oz"].contains u then "oz"
  else if ["pound", "pounds", "lb", "lbs"].contains u then "pound"
  else if ["gram", "grams", "g"].contains u then "g"
  else if ["kilogram", "kilograms", "kg"].contains u then "kg"
  else if ["each", "ea", "count", "ct", "piece", "pieces", ""].contains u then "count"
  else if ["dozen", "doz"].contains u then "dozen"
  else if ["can", "cans"].contains u then "can"
  else if ["package", "packages", "pkg", "pack"].contains u then "package"
  else if ["bottle", "bottles", "btl"].contains u then "bottle"
  else if ["box", "boxes"].contains u then "box"
  else if ["jar", "jars"].contains u then "jar"
  else if ["stick", "sticks"].contains u then "stick"
  else u

/-- The static conversion table `unitConversions`
(`src/unnamed/part_002`, lines 9-55), keyed exactly as in the source. -/
def unitConversions (key : String) : Option ℚ :=
  match key with
  | "tbsp_to_oz" => some 0.5
  | "tsp_to_oz" => some 0.1667
  | "cup_to_oz" => some 8
  | "cup_to_ml" => some 236.59
  | "oz_to_ml" => some 29.57
  | "cup_to_tbsp" => some 16
  | "cup_to_tsp" => some 48
  | "tbsp_to_tsp" => some 3
  | "pint_to_cup" => some 2
  | "quart_to_cup" => some 4
  | "gallon_to_cup" => some 16
  | "pound_to_oz" => some 16
  | "kg_to_pound" => some 2.20462
  | "g_to_oz" => some 0.03527396
  | "cup_flour_to_oz" => some 4.25
  | "cup_sugar_to_oz" => some 7.05
  | "cup_brown_sugar_to_oz" => some 7.5
  | "cup_rice_to_oz" => some 6.53
  | "cup_oats_to_oz" => some 2.65
  | "cup_milk_to_oz" => some 8.6
  | "cup_butter_to_oz" => some 8
  | "cup_oil_to_oz" => some 7.63
  | "cup_honey_to_oz" => some 12
  | "cup_yogurt_to_oz" => some 8.6
  | "tbsp_honey_to_oz" => some 0.75
  | "tbsp_oil_to_oz" => some 0.5
  | "tbsp_butter_to_oz" => some 0.5
  | "tbsp_flour_to_oz" => some 0.27
  | "tbsp_sugar_to_oz" => some 0.44
  | "dozen_to_count" => some 12
  | "half_dozen_to_count" => some 6
  | "stick_butter_to_oz" => some 4
  | "can_to_oz" => some 14.5
  | "package_to_oz" => some 16
  | _ => none

/-- A table lookup used inside a JavaScript truthiness test
`if (unitConversions[key])`: the entry must be present and nonzero.
(Every factor in the table is nonzero, so this agrees with presence.) -/
def lookupTruthy (key : String) : Option ℚ :=
  match unitConversions key with
  | some f => if f = 0 then none else some f
  | none => none

/-- Direct indexing `unitConversions[key]` for keys the source accesses
unconditionally (always present in the table); absence would be a
JavaScript `undefined`, never reached on these fixed keys. -/
def tableAt (key : String) : ℚ := (unitConversions key).getD 0

/-- The fallback chain of `convertUnit` after the ingredient-specific
section (`src/unnamed/part_002`, lines 126-177): direct factor, reverse
factor, volume multi-hop via oz, ml/liter to oz/cup, weight multi-hop
via oz, and finally the `null` sentinel. -/
def convertViaTable (value : ℚ) (fromN toN : String) : Option ℚ :=
  match lookupTruthy (fromN ++ "_to_" ++ toN) with
  | some f => some (value * f)
  | none =>
  match lookupTruthy (toN ++ "_to_" ++ fromN) with
  | some f => some (value / f)
  | none =>
  let volumeHop : Option ℚ :=
    if ["tbsp", "tsp", "cup", "pint", "quart", "gallon"].contains fromN
        && ["tbsp", "tsp", "cup", "pint", "quart", "gallon"].contains toN then
      match lookupTruthy (fromN ++ "_to_oz"), lookupTruthy (toN ++ "_to_oz") with
      | some a, some b => some (value * a / b)
      | _, _ => none
    else none
  match volumeHop with
  | some r => some r
  | none =>
  if ["ml", "liter"].contains fromN && ["oz", "cup"].contains toN then
    let mlValue := if fromN == "liter" then value * 1000 else value
    some (mlValue / tableAt "oz_to_ml" * (if toN == "cup" then (1 / 8 : ℚ) else 1))
  else if ["g", "kg", "pound"].contains fromN
      && ["g", "kg", "pound", "oz"].contains toN then
    let ozValue :=
      if fromN == "g" then value * tableAt "g_to_oz"
      else if fromN == "kg" then value * tableAt "kg_to_pound" * tableAt "pound_to_oz"
      else if fromN == "pound" then value * tableAt "pound_to_oz"
      else value
    if toN == "g" then some (ozValue / tableAt "g_to_oz")
    else if toN == "kg" then some (ozValue / tableAt "pound_to_oz" / tableAt "kg_to_pound")
    else if toN == "pound" then some (ozValue / tableAt "pound_to_oz")
    else some ozValue
  else none

/-- `convertUnit` (`src/unnamed/part_002`, lines 99-178).  Returns `none`
for the JavaScript `null` "not convertible" sentinel.  Same-unit requests
return the value unchanged; an ingredient-specific cup/tbsp→oz factor is
applied preferentially when present; otherwise the table chain of
`convertViaTable` runs. -/
def convertUnit (value : ℚ) (fromUnit toUnit : String)
    (ingredient : Option String) : Option ℚ :=
  let fromN := normalizeUnit fromUnit
  let toN := normalizeUnit toUnit
  if fromN == toN then some value
  else
    let viaIngredient : Option ℚ :=
      match ingredient with
      | some ing =>
        let ingN := jsTrim (jsToLower ing)
        if fromN == "cup" && toN == "oz" then
          match lookupTruthy (fromN ++ "_" ++ ingN ++ "_to_oz") with
          | some f => some (value * f)
          | none => none
        else if fromN == "tbsp" && toN == "oz" then
          match lookupTruthy ("tbsp_" ++ ingN ++ "_to_oz") with
          | some f => some (value * f)
          | none => none
        else none
      | none => none
    match viaIngredient with
    | some r => some r
    | none => convertViaTable value fromN toN

/-- JavaScript `Math.round`: round half toward positive infinity. -/
def jsRound (x : ℚ) : ℚ := (⌊x + 1 / 2⌋ : ℤ)

/-- Output formatting of the `convertCookingUnits` tool
(`src/unnamed/part_002`, lines 198-207): two decimals when the converted
value exceeds 0.1, three decimals otherwise. -/
def formatConverted (cv : ℚ) : ℚ :=
  if cv > 0.1 then jsRound (cv * 100) / 100 else jsRound (cv * 1000) / 1000

/-- Result of the `convertCookingUnits` tool: either a conversion result
or the descriptive unsupported-conversion message.  Both are returned as
normal tool replies (never thrown). -/
inductive ConvertToolResult where
  | converted (formatted : ℚ) : ConvertToolResult
  | unsupported (message : String) : ConvertToolResult
deriving Repr, DecidableEq

/-- The descriptive message of the unsupported branch of
`convertCookingUnits` (`src/unnamed/part_002`, lines 215-222). -/
def unsupportedMessage (value : ℚ) (fromUnit toUnit : String)
    (ingredient : Option String) : String :=
  "Unable to convert " ++ toString value ++ " " ++ fromUnit ++ " to " ++ toUnit
    ++ (match ingredient with
        | some ing => " for " ++ ing
        | none => "")
    ++ ". This conversion is not supported. Try using common units like cups, tablespoons, ounces, or grams."

/-- The `convertCookingUnits` tool handler (`src/unnamed/part_002`,
lines 192-222): formats non-null conversions and reports a descriptive
message for the `null` sentinel. -/
def convertCookingUnits (value : ℚ) (fromUnit toUnit : String)
    (ingredient : Option String) : ConvertToolResult :=
  match convertUnit value fromUnit toUnit ingredient with
  | some cv => .converted (formatConverted cv)
  | none => .unsupported (unsupportedMessage value fromUnit toUnit ingredient)

example : convertUnit 1 "cup" "tbsp" none = some 16 := by decide
example : convertUnit 2 "tbsp" "tsp" none = some 6 := by decide
example : convertUnit 1 "cup" "oz" (some "flour") = some 4.25 := by decide
example : convertUnit 5 "smoot" "oz" none = none := by decide

/-! ## Pantry data model

`PantryItem` and `ShoppingListItem` follow `src/types/pantry.ts` and
`src/types/shoppingList.ts` (fields irrelevant to every claim — tags,
timestamps — are omitted; expiry dates are modelled as rational
timestamps, which preserves the JavaScript `Date` ordering used by the
code).  The remote Notion store is modelled as an in-memory
`PantryState`; page creation draws from the `nextId` counter, standing
in for Notion's fresh page ids. -/

/-- Shopping-list priority (`Priority` select in `src/types/shoppingList.ts`). -/
inductive Priority where
  | low
  | medium
  | high
deriving Repr, DecidableEq

/-- A pantry (stock) record, after `notionPageToPantryItem`. -/
structure PantryItem where
  id : String
  name : String
  quantity : ℚ
  unit : String
  category : String
  location : String := "Pantry"
  expiryDate : Option ℚ := none
  isStaple : Bool := false
  minQuantity : Option ℚ := none
  notes : String := ""
deriving Repr, DecidableEq

/-- A shopping-list record, after `notionPageToShoppingListItem`. -/
structure ShoppingListItem where
  id : String
  name : String
  quantity : ℚ
  unit : String
  category : String
  priority : Priority
  isPurchased : Bool
  isAutoAdded : Bool
  notes : String := ""
deriving Repr, DecidableEq

/-- The two Notion databases the reconciliation tools read and write. -/
structure PantryState where
  pantry : List PantryItem
  shopping : List ShoppingListItem
  nextId : Nat := 0
deriving Repr, DecidableEq

/-- Case-insensitive name equality, the matching rule used everywhere:
`a.name.toLowerCase() === b.name.toLowerCase()`. -/
def nameMatch (a b : String) : Bool := jsToLower a == jsToLower b

/-- JavaScript `x || d` for an optional number `x`: `undefined` and `0`
are falsy and select the default. -/
def jsOrOptQ (o : Option ℚ) (d : ℚ) : ℚ :=
  match o with
  | none => d
  | some x => if x = 0 then d else x

/-- JavaScript truthiness of an optional number: defined and nonzero. -/
def truthyOpt (o : Option ℚ) : Bool :=
  match o with
  | none => false
  | some x => decide (x ≠ 0)

/-- Fresh Notion page id for the `nextId`-th created page. -/
def freshId (n : Nat) : String := "page_" ++ toString n

/-- `notionService.updatePantryItem(id, { quantity })`: rewrite the
quantity of the page with the given id. -/
def updateQuantity (items : List PantryItem) (id : String) (q : ℚ) :
    List PantryItem :=
  items.map fun p => if p.id == id then { p with quantity := q } else p

/-- Argument bundle of `notionService.addToShoppingList` (everything but
the Notion-generated id). -/
structure NewShoppingItem where
  name : String
  quantity : ℚ
  unit : String
  category : String
  priority : Priority
  isPurchased : Bool
  isAutoAdded : Bool
  notes : String := ""

/-- `notionService.addToShoppingList`: create a shopping-list page. -/
def addShoppingItem (st : PantryState) (w : NewShoppingItem) : PantryState :=
  { st with
    shopping := st.shopping ++
      [{ id := freshId st.nextId, name := w.name, quantity := w.quantity,
         unit := w.unit, category := w.category, priority := w.priority,
         isPurchased := w.isPurchased, isAutoAdded := w.isAutoAdded,
         notes := w.notes }],
    nextId := st.nextId + 1 }

/-! ## Cooking reconciliation: `updatePantryWithUsedItems`
(`src/tools/pantryTools.ts`, lines 744-828).  The tool fetches the pantry
once before its loop; each iteration matches the usage entry against that
snapshot, writes `max(0, quantity - used)`, and appends a
Medium-priority auto-added shopping entry exactly when the staple guard
with the edge-crossing test passes. -/

/-- A `{name, quantity, unit}` usage entry (also the entry shape of
`updatePantryItems` and of the manual-ingredient path). -/
structure UsageEntry where
  name : String
  quantity : ℚ
  unit : String := ""
deriving Repr, DecidableEq

/-- One iteration of the `updatePantryWithUsedItems` loop
(`src/tools/pantryTools.ts`, lines 764-805). -/
def usedItemStep (addToShoppingList : Bool) (snapshot : List PantryItem)
    (st : PantryState) (item : UsageEntry) : PantryState :=
  match snapshot.find? fun p => nameMatch p.name item.name with
  | none => st
  | some pantryItem =>
    let newQuantity := max 0 (pantryItem.quantity - item.quantity)
    let st1 := { st with pantry := updateQuantity st.pantry pantryItem.id newQuantity }
    let fire := addToShoppingList && pantryItem.isStaple &&
      (match pantryItem.minQuantity with
       | some m => decide (m < pantryItem.quantity) && decide (newQuantity ≤ m)
       | none => false)
    if fire then
      addShoppingItem st1
        { name := pantryItem.name,
          quantity := jsOrOptQ pantryItem.minQuantity 1,
          unit := pantryItem.unit, category := pantryItem.category,
          priority := .medium, isPurchased := false, isAutoAdded := true }
    else st1

/-- The `updatePantryWithUsedItems` tool: fold the per-entry step over
the usage list, matching against the pantry snapshot taken before the
loop. -/
def updatePantryWithUsedItems (items : List UsageEntry)
    (addToShoppingList : Bool) (st : PantryState) : PantryState :=
  items.foldl (usedItemStep addToShoppingList st.pantry) st

/-! ## Cooking reconciliation: manual-ingredient path of
`updatePantryAfterCooking` (`src/tools/pantryTools.ts`, lines 362-407).
Identical to `updatePantryWithUsedItems` except that the created
shopping entry's quantity is `pantryItem.minQuantity` itself (no `|| 1`
fallback). -/

/-- One iteration of the manual-ingredient loop of
`updatePantryAfterCooking` (`src/tools/pantryTools.ts`, lines 369-407). -/
def cookingIngredientStep (addToShoppingList : Bool)
    (snapshot : List PantryItem) (st : PantryState) (ingredient : UsageEntry) :
    PantryState :=
  match snapshot.find? fun p => nameMatch p.name ingredient.name with
  | none => st
  | some pantryItem =>
    let newQuantity := max 0 (pantryItem.quantity - ingredient.quantity)
    let st1 := { st with pantry := updateQuantity st.pantry pantryItem.id newQuantity }
    match pantryItem.minQuantity with
    | some m =>
      if addToShoppingList && pantryItem.isStaple &&
          decide (m < pantryItem.quantity) && decide (newQuantity ≤ m) then
        addShoppingItem st1
          { name := pantryItem.name, quantity := m,
            unit := pantryItem.unit, category := pantryItem.category,
            priority := .medium, isPurchased := false, isAutoAdded := true }
      else st1
    | none => st1

/-- The manual-ingredient path of the `updatePantryAfterCooking` tool. -/
def updatePantryAfterCookingIngredients (ingredients : List UsageEntry)
    (addToShoppingList : Bool) (st : PantryState) : PantryState :=
  ingredients.foldl (cookingIngredientStep addToShoppingList st.pantry) st

/-! ## Cooking reconciliation: `NotionPantryService.updatePantryForRecipe`
(`src/tools/pantryTools.ts`, lines 1288-1338; identical in
`src/unnamed/part_004`, lines 451-501).  The recipe's resolved
ingredient list is passed in as a parameter: in the source it comes from
`getRecipeWithIngredients`, whose non-dummy branch synthesizes
ingredients randomly (`generateIngredientsFromRecipeName`), an external
effect outside this embedding.  Note the loop iterates over every
ingredient — there is no `isOptional` filter here — and its shopping-list
guard is `newQuantity === 0 || (isStaple && minQuantity && newQuantity <=
minQuantity)`, with JavaScript truthiness on `minQuantity` and no
edge-crossing test on the pre-update quantity. -/

/-- A recipe ingredient (`src/types/recipeIngredients.ts`). -/
structure RecipeIngredient where
  name : String
  quantity : ℚ
  unit : String := ""
  isOptional : Bool := false
deriving Repr, DecidableEq

/-- One iteration of the `updatePantryForRecipe` loop
(`src/tools/pantryTools.ts`, lines 1306-1332). -/
def recipeIngredientStep (snapshot : List PantryItem) (st : PantryState)
    (ingredient : RecipeIngredient) : PantryState :=
  match snapshot.find? fun p => nameMatch p.name ingredient.name with
  | none => st
  | some pantryItem =>
    let newQuantity := max 0 (pantryItem.quantity - ingredient.quantity)
    let st1 := { st with pantry := updateQuantity st.pantry pantryItem.id newQuantity }
    if decide (newQuantity = 0) ||
        (pantryItem.isStaple && truthyOpt pantryItem.minQuantity &&
         decide (newQuantity ≤ pantryItem.minQuantity.getD 0)) then
      addShoppingItem st1
        { name := pantryItem.name,
          quantity := if pantryItem.isStaple then jsOrOptQ pantryItem.minQuantity 1
                      else ingredient.quantity,
          unit := pantryItem.unit, category := pantryItem.category,
          priority := if pantryItem.isStaple then .high else .medium,
          isPurchased := false, isAutoAdded := true }
    else st1

/-- `NotionPantryService.updatePantryForRecipe`, applied to the recipe's
resolved ingredient list. -/
def updatePantryForRecipe (ingredients : List RecipeIngredient)
    (st : PantryState) : PantryState :=
  ingredients.foldl (recipeIngredientStep st.pantry) st

/-- A before/after row of the change report assembled by the recipe path
of the `updatePantryAfterCooking` tool. -/
structure CookChange where
  name : String
  before : ℚ
  afterQ : ℚ
  unit : String
deriving Repr, DecidableEq

/-- The change report of the recipe path of `updatePantryAfterCooking`
(`src/tools/pantryTools.ts`, lines 308-331): one row per non-optional
ingredient found in both the before and after pantry snapshots. -/
def cookingChanges (ingredients : List RecipeIngredient)
    (pantryBefore pantryAfter : List PantryItem) : List CookChange :=
  ingredients.foldl
    (fun acc ingredient =>
      if ingredient.isOptional then acc
      else
        match pantryBefore.find? fun p => nameMatch p.name ingredient.name,
              pantryAfter.find? fun p => nameMatch p.name ingredient.name with
        | some b, some a =>
          acc ++ [{ name := ingredient.name, before := b.quantity,
                    afterQ := a.quantity, unit := b.unit }]
        | _, _ => acc)
    []

/-- The `addedToShoppingList` names reported by the recipe path of
`updatePantryAfterCooking` (`src/tools/pantryTools.ts`, lines 311-331):
unlike the writes of `updatePantryForRecipe`, this report applies the
edge-crossing staple test to the before/after snapshots and skips
optional ingredients. -/
def cookingReportedAdds (addToShoppingList : Bool)
    (ingredients : List RecipeIngredient)
    (pantryBefore pantryAfter : List PantryItem) : List String :=
  ingredients.foldl
    (fun acc ingredient =>
      if ingredient.isOptional then acc
      else
        match pantryBefore.find? fun p => nameMatch p.name ingredient.name,
              pantryAfter.find? fun p => nameMatch p.name ingredient.name with
        | some b, some a =>
          if addToShoppingList && b.isStaple &&
              (match b.minQuantity with
               | some m => decide (m < b.quantity) && decide (a.quantity ≤ m)
               | none => false) then
            acc ++ [ingredient.name]
          else acc
        | _, _ => acc)
    []

/-! ## `updatePantryItems` (`src/tools/pantryTools.ts`, lines 195-265):
signed quantity adjustments.  The pantry is re-fetched inside the loop,
so each iteration matches against the current state. -/

/-- One iteration of the `updatePantryItems` loop
(`src/tools/pantryTools.ts`, lines 209-250). -/
def updatePantryItemsStep (st : PantryState) (item : UsageEntry) : PantryState :=
  match st.pantry.find? fun i => nameMatch i.name item.name with
  | some existingItem =>
    { st with
      pantry :=
        updateQuantity st.pantry existingItem.id
          (max 0 (existingItem.quantity + item.quantity)) }
  | none =>
    if item.quantity > 0 then
      { st with
        pantry := st.pantry ++
          [{ id := freshId st.nextId, name := item.name,
             quantity := item.quantity, unit := item.unit,
             category := "Other", location := "Pantry", isStaple := false }],
        nextId := st.nextId + 1 }
    else st

/-- The `updatePantryItems` tool. -/
def updatePantryItems (items : List UsageEntry) (st : PantryState) : PantryState :=
  items.foldl updatePantryItemsStep st

/-! ## `addPantryItem` (`src/tools/pantryTools.ts`, lines 442-509).
On a case-insensitive name match the existing page's quantity is
incremented (no clamping) and the expiry date replaced when supplied;
otherwise a new page is created, with
`minQuantity = isStaple ? (minQuantity || Math.ceil(quantity * 0.2)) : undefined`. -/

/-- Argument bundle of the `addPantryItem` tool. -/
structure AddPantryArgs where
  name : String
  quantity : ℚ
  unit : String
  category : String
  location : String := "Pantry"
  expiryDate : Option ℚ := none
  isStaple : Bool := false
  minQuantity : Option ℚ := none
deriving Repr, DecidableEq

/-- JavaScript `Math.ceil` on an exact rational. -/
def jsCeil (x : ℚ) : ℚ := ((⌈x⌉ : ℤ) : ℚ)

/-- The `addPantryItem` tool. -/
def addPantryItem (args : AddPantryArgs) (st : PantryState) : PantryState :=
  match st.pantry.find? fun item => nameMatch item.name args.name with
  | some existingItem =>
    { st with
      pantry := st.pantry.map fun p =>
        if p.id == existingItem.id then
          { p with
            quantity := existingItem.quantity + args.quantity,
            expiryDate :=
              match args.expiryDate with
              | some d => some d
              | none => p.expiryDate }
        else p }
  | none =>
    { st with
      pantry := st.pantry ++
        [{ id := freshId st.nextId, name := args.name,
           quantity := args.quantity, unit := args.unit,
           category := args.category, location := args.location,
           expiryDate := args.expiryDate, isStaple := args.isStaple,
           minQuantity :=
             if args.isStaple then
               some (jsOrOptQ args.minQuantity (jsCeil (args.quantity * 0.2)))
             else none }],
      nextId := st.nextId + 1 }

/-! ## `addPurchasedItemsToPantry` (`src/tools/pantryTools.ts`,
lines 651-741, and `NotionPantryService.addPurchasedItemsToPantry`,
lines 1441-1487, whose store effects coincide).  The purchased subset is
taken from the shopping list fetched before the loop; the pantry is
re-fetched inside the loop. -/

/-- One iteration of the purchased-items loop: merge into the pantry
(increment the case-insensitive match, or create a non-staple page),
then archive the shopping-list page. -/
def purchasedStep (st : PantryState) (item : ShoppingListItem) : PantryState :=
  let st1 : PantryState :=
    match st.pantry.find? fun p => nameMatch p.name item.name with
    | some existingItem =>
      { st with
        pantry :=
          updateQuantity st.pantry existingItem.id
            (existingItem.quantity + item.quantity) }
    | none =>
      { st with
        pantry := st.pantry ++
          [{ id := freshId st.nextId, name := item.name,
             quantity := item.quantity, unit := item.unit,
             category := item.category, location := "Pantry",
             isStaple := false, notes := item.notes }],
        nextId := st.nextId + 1 }
  { st1 with shopping := st1.shopping.filter fun i => !(i.id == item.id) }

/-- The `addPurchasedItemsToPantry` tool / service method. -/
def addPurchasedItemsToPantry (st : PantryState) : PantryState :=
  (st.shopping.filter fun item => item.isPurchased).foldl purchasedStep st

/-! ## `removeExpiredItems` (`src/tools/pantryTools.ts`, lines 830-919).
Items whose expiry date is on or before the cutoff are removed (unless
`dryRun`), staples being first re-queued on the shopping list with High
priority. -/

/-- One iteration of the expired-items loop
(`src/tools/pantryTools.ts`, lines 865-895). -/
def expiredStep (addToShoppingList dryRun : Bool) (st : PantryState)
    (item : PantryItem) : PantryState :=
  let st1 :=
    if addToShoppingList && item.isStaple && !dryRun then
      addShoppingItem st
        { name := item.name,
          quantity := jsOrOptQ item.minQuantity item.quantity,
          unit := item.unit, category := item.category,
          priority := .high, isPurchased := false, isAutoAdded := true,
          notes := "Replacing expired item" }
    else st
  if !dryRun then
    { st1 with pantry := st1.pantry.filter fun p => !(p.id == item.id) }
  else st1

/-- The expired subset of the pantry: expiry date present and on or
before the cutoff (`src/tools/pantryTools.ts`, lines 846-850). -/
def expiredItems (cutoff : ℚ) (st : PantryState) : List PantryItem :=
  st.pantry.filter fun item =>
    match item.expiryDate with
    | some d => decide (d ≤ cutoff)
    | none => false

/-- The `removeExpiredItems` tool, with the cutoff date as a rational
timestamp. -/
def removeExpiredItems (cutoff : ℚ) (addToShoppingList dryRun : Bool)
    (st : PantryState) : PantryState :=
  (expiredItems cutoff st).foldl (expiredStep addToShoppingList dryRun) st

/-! ## Concrete fixtures used by witnesses and counterexamples. -/

/-- The staple eggs record of the spec scenario (quantity 12, minimum 6). -/
def eggsItem : PantryItem :=
  { id := "item_1", name := "Eggs", quantity := 12, unit := "count",
    category := "Dairy & Eggs", location := "Refrigerator",
    isStaple := true, minQuantity := some 6 }

/-- A pantry holding only `eggsItem`, with an empty shopping list. -/
def eggsState : PantryState := { pantry := [eggsItem], shopping := [] }

/-- A staple below its minimum already: quantity 4, minimum 5. -/
def lowFlourItem : PantryItem :=
  { id := "item_2", name := "Flour", quantity := 4, unit := "cup",
    category := "Baking", isStaple := true, minQuantity := some 5 }

/-- A pantry holding only `lowFlourItem`. -/
def lowFlourState : PantryState := { pantry := [lowFlourItem], shopping := [] }

/-- A staple just above its minimum: quantity 6, minimum 5. -/
def riceItem : PantryItem :=
  { id := "item_6", name := "Rice", quantity := 6, unit := "cup",
    category := "Grains", isStaple := true, minQuantity := some 5 }

/-- A pantry holding only `riceItem`. -/
def riceState : PantryState := { pantry := [riceItem], shopping := [] }

/-- A plain non-staple record with quantity 5. -/
def cheeseItem : PantryItem :=
  { id := "item_3", name := "Cheese", quantity := 5, unit := "slice",
    category := "Dairy & Eggs" }

/-- A pantry holding only `cheeseItem`. -/
def cheeseState : PantryState := { pantry := [cheeseItem], shopping := [] }

/-! ## Claims about the unit-conversion module. -/

/-- C7: unit conversion is reflexive — for every value and every unit
string, including strings the normalizer passes through unchanged,
`convertUnit(v, u, u)` returns `v` (for any optional ingredient). -/
theorem convertUnit_refl (v : ℚ) (u : String) (ingredient : Option String) :
    convertUnit v u u ingredient = some v := by
  simp [convertUnit]

/-- C8: the three conversion scenarios — 1 cup = 16 tbsp, 2 tbsp = 6 tsp,
and 1 cup of flour = 4.25 oz, the ingredient-specific factor being
preferred over the generic cup→oz factor 8 (last conjunct). -/
theorem convertUnit_scenarios :
    convertUnit 1 "cup" "tbsp" none = some 16 ∧
    convertUnit 2 "tbsp" "tsp" none = some 6 ∧
    convertUnit 1 "cup" "oz" (some "flour") = some 4.25 ∧
    convertUnit 1 "cup" "oz" none = some 8 := by
  decide

/-- C9: with no resolution path (e.g. 5 smoot → oz) `convertUnit`
returns the `null` sentinel rather than throwing, and the
`convertCookingUnits` tool turns every such sentinel into the
descriptive unsupported-conversion message, returned as a normal
result. -/
theorem convertUnit_notConvertible :
    convertUnit 5 "smoot" "oz" none = none ∧
    convertCookingUnits 5 "smoot" "oz" none =
      .unsupported (unsupportedMessage 5 "smoot" "oz" none) ∧
    (∀ (v : ℚ) (fromU toU : String) (ingredient : Option String),
      convertUnit v fromU toU ingredient = none →
      convertCookingUnits v fromU toU ingredient =
        .unsupported (unsupportedMessage v fromU toU ingredient)) := by
  refine ⟨by decide, by decide, ?_⟩
  intro v fromU toU ingredient h
  simp [convertCookingUnits, h]

/-- Witness for C9: the general sentinel-to-message implication applied
at the concrete 5 smoot → oz input. -/
theorem convertUnit_notConvertible_witness :
    convertCookingUnits 5 "smoot" "oz" none =
      .unsupported (unsupportedMessage 5 "smoot" "oz" none) :=
  convertUnit_notConvertible.2.2 5 "smoot" "oz" none (by decide)

/-! ## Claims about reconciliation arithmetic. -/

/-- C3: in each reconciliation path, a matched item's stored quantity
becomes `max(0, current − needed)`; that value is nonnegative whenever
the inputs are, and over-use floors the quantity at exactly zero. -/
theorem reconciliation_newQuantity_spec :
    (∀ (b : Bool) (snapshot : List PantryItem) (st : PantryState)
       (u : UsageEntry) (p : PantryItem),
      snapshot.find? (fun q => nameMatch q.name u.name) = some p →
      (usedItemStep b snapshot st u).pantry =
        updateQuantity st.pantry p.id (max 0 (p.quantity - u.quantity))) ∧
    (∀ (b : Bool) (snapshot : List PantryItem) (st : PantryState)
       (u : UsageEntry) (p : PantryItem),
      snapshot.find? (fun q => nameMatch q.name u.name) = some p →
      (cookingIngredientStep b snapshot st u).pantry =
        updateQuantity st.pantry p.id (max 0 (p.quantity - u.quantity))) ∧
    (∀ (snapshot : List PantryItem) (st : PantryState)
       (ingredient : RecipeIngredient) (p : PantryItem),
      snapshot.find? (fun q => nameMatch q.name ingredient.name) = some p →
      (recipeIngredientStep snapshot st ingredient).pantry =
        updateQuantity st.pantry p.id (max 0 (p.quantity - ingredient.quantity))) ∧
    (∀ q n : ℚ, 0 ≤ q → 0 ≤ n → 0 ≤ max 0 (q - n)) ∧
    (∀ q n : ℚ, q ≤ n → max 0 (q - n) = 0) := by
  refine ⟨?_, ?_, ?_, ?_, ?_⟩
  · intro b snapshot st u p hfind
    simp only [usedItemStep, hfind]
    split <;> rfl
  · intro b snapshot st u p hfind
    simp only [cookingIngredientStep, hfind]
    split
    · split <;> rfl
    · rfl
  · intro snapshot st ingredient p hfind
    simp only [recipeIngredientStep, hfind]
    split <;> rfl
  · intro q n _ _
    exact le_max_left 0 (q - n)
  · intro q n h
    exact max_eq_left (sub_nonpos.mpr h)

/-- Witness for C3: the spec scenario — using 7 of the 12 eggs writes
quantity `max(0, 12 − 7) = 5`, and over-using 20 floors at 0. -/
theorem reconciliation_newQuantity_spec_witness :
    (usedItemStep true eggsState.pantry eggsState
        { name := "Eggs", quantity := 7, unit := "count" }).pantry =
      updateQuantity eggsState.pantry eggsItem.id
        (max 0 (eggsItem.quantity - 7)) ∧
    max (0 : ℚ) (12 - 20) = 0 :=
  ⟨reconciliation_newQuantity_spec.1 true eggsState.pantry eggsState
      { name := "Eggs", quantity := 7, unit := "count" } eggsItem (by decide),
    reconciliation_newQuantity_spec.2.2.2.2 12 20 (by norm_num)⟩

/-! ## Claim C10: `addPantryItem` minimum-quantity default. -/

/-- C10: creating a fresh pantry item with `isStaple = true` and an
absent or zero `minQuantity` argument stores
`minQuantity = ⌈quantity * 0.2⌉`; with `isStaple = false` the stored
`minQuantity` is undefined regardless of the argument. -/
theorem addPantryItem_minQuantity_default (st : PantryState)
    (args : AddPantryArgs)
    (hnew : st.pantry.find? (fun item => nameMatch item.name args.name) = none) :
    ∃ newItem : PantryItem,
      (addPantryItem args st).pantry = st.pantry ++ [newItem] ∧
      newItem.name = args.name ∧
      newItem.quantity = args.quantity ∧
      (args.isStaple = true →
        (args.minQuantity = none ∨ args.minQuantity = some 0) →
        newItem.minQuantity = some (jsCeil (args.quantity * 0.2))) ∧
      (args.isStaple = false → newItem.minQuantity = none) := by
  refine ⟨{ id := freshId st.nextId, name := args.name,
            quantity := args.quantity, unit := args.unit,
            category := args.category, location := args.location,
            expiryDate := args.expiryDate, isStaple := args.isStaple,
            minQuantity :=
              if args.isStaple then
                some (jsOrOptQ args.minQuantity (jsCeil (args.quantity * 0.2)))
              else none }, ?_, rfl, rfl, ?_, ?_⟩
  · simp only [addPantryItem, hnew]
  · intro hstaple hmin
    simp only [hstaple, if_true]
    rcases hmin with h | h <;> simp [h, jsOrOptQ]
  · intro hstaple
    simp [hstaple]

/-! ## Claim C1: when replenishment fires. -/

/-- Counterexample to C1: on the recipe path (`updatePantryForRecipe`),
the claimed edge-crossing condition does not govern the add.  For the
staple Flour with `minQuantity = 5` and pre-update quantity 4 — the
claim's own "now-4 item" — using 1 must trigger no add per the claim
(4 is not > 5), yet the code appends one shopping-list entry, because
its guard is `newQuantity === 0 || (isStaple && minQuantity &&
newQuantity <= minQuantity)` with no pre-quantity test. -/
theorem recipePath_replenishes_without_crossing :
    lowFlourItem.isStaple = true ∧
    lowFlourItem.minQuantity = some 5 ∧
    ¬((5 : ℚ) < lowFlourItem.quantity) ∧
    ((updatePantryForRecipe [{ name := "Flour", quantity := 1, unit := "cup" }]
        lowFlourState).shopping).length =
      lowFlourState.shopping.length + 1 := by
  decide

/-- C1 as amended: with `addToShoppingList` left at its default `true`
and a single matched usage entry, `updatePantryWithUsedItems` and the
manual-ingredient path of `updatePantryAfterCooking` add a replenishment
entry if and only if the item is a staple with a defined `minQuantity`,
pre-update quantity strictly above it and post-update quantity at or
below it (so the 6→4 crossing with minimum 5 adds exactly one entry and
the subsequent 4→3 usage adds none); the recipe path
(`updatePantryForRecipe`) instead adds an entry if and only if the
post-update quantity is 0, or the item is a staple with a defined
nonzero `minQuantity` and post-update quantity at or below it — with no
edge-crossing requirement. -/
theorem replenishment_condition_by_path :
    (∀ (st : PantryState) (u : UsageEntry) (p : PantryItem),
      st.pantry.find? (fun q => nameMatch q.name u.name) = some p →
      (((updatePantryWithUsedItems [u] true st).shopping).length =
          st.shopping.length + 1 ↔
        p.isStaple = true ∧ ∃ m, p.minQuantity = some m ∧
          m < p.quantity ∧ max 0 (p.quantity - u.quantity) ≤ m)) ∧
    (∀ (st : PantryState) (u : UsageEntry) (p : PantryItem),
      st.pantry.find? (fun q => nameMatch q.name u.name) = some p →
      (((updatePantryAfterCookingIngredients [u] true st).shopping).length =
          st.shopping.length + 1 ↔
        p.isStaple = true ∧ ∃ m, p.minQuantity = some m ∧
          m < p.quantity ∧ max 0 (p.quantity - u.quantity) ≤ m)) ∧
    (∀ (st : PantryState) (ingredient : RecipeIngredient) (p : PantryItem),
      st.pantry.find? (fun q => nameMatch q.name ingredient.name) = some p →
      (((updatePantryForRecipe [ingredient] st).shopping).length =
          st.shopping.length + 1 ↔
        (max 0 (p.quantity - ingredient.quantity) = 0 ∨
          (p.isStaple = true ∧ ∃ m, p.minQuantity = some m ∧ m ≠ 0 ∧
            max 0 (p.quantity - ingredient.quantity) ≤ m)))) := by
  refine ⟨?_, ?_, ?_⟩
  · intro st u p hfind
    have hstep : updatePantryWithUsedItems [u] true st =
        usedItemStep true st.pantry st u := rfl
    rw [hstep]
    simp only [usedItemStep, hfind]
    rcases hm : p.minQuantity with _ | m <;> simp only [hm]
    · rw [if_neg (by simp)]
      exact iff_of_false (by simp) (by rintro ⟨-, m1, hm1, -⟩; cases hm1)
    · by_cases h1 : m < p.quantity
      · by_cases h2 : max 0 (p.quantity - u.quantity) ≤ m
        · cases hs : p.isStaple
          · rw [if_neg (by simp [hs])]
            exact iff_of_false (by simp) (by rintro ⟨hcontr, -⟩; simp [hs] at hcontr)
          · rw [if_pos (by simp [hs, h1, h2])]
            exact iff_of_true (by simp [addShoppingItem]) ⟨rfl, m, rfl, h1, h2⟩
        · rw [if_neg (by simp [h2])]
          refine iff_of_false (by simp) ?_
          rintro ⟨-, m1, hm1, -, hle⟩
          rw [Option.some.injEq] at hm1
          subst hm1
          exact h2 hle
      · rw [if_neg (by simp [h1])]
        refine iff_of_false (by simp) ?_
        rintro ⟨-, m1, hm1, hlt, -⟩
        rw [Option.some.injEq] at hm1
        subst hm1
        exact h1 hlt
  · intro st u p hfind
    have hstep : updatePantryAfterCookingIngredients [u] true st =
        cookingIngredientStep true st.pantry st u := rfl
    rw [hstep]
    simp only [cookingIngredientStep, hfind]
    rcases hm : p.minQuantity with _ | m <;> simp only [hm]
    · exact iff_of_false (by simp) (by rintro ⟨-, m1, hm1, -⟩; cases hm1)
    · by_cases h1 : m < p.quantity
      · by_cases h2 : max 0 (p.quantity - u.quantity) ≤ m
        · cases hs : p.isStaple
          · rw [if_neg (by simp [hs])]
            exact iff_of_false (by simp) (by rintro ⟨hcontr, -⟩; simp [hs] at hcontr)
          · rw [if_pos (by simp [hs, h1, h2])]
            exact iff_of_true (by simp [addShoppingItem]) ⟨rfl, m, rfl, h1, h2⟩
        · rw [if_neg (by simp [h2])]
          refine iff_of_false (by simp) ?_
          rintro ⟨-, m1, hm1, -, hle⟩
          rw [Option.some.injEq] at hm1
          subst hm1
          exact h2 hle
      · rw [if_neg (by simp [h1])]
        refine iff_of_false (by simp) ?_
        rintro ⟨-, m1, hm1, hlt, -⟩
        rw [Option.some.injEq] at hm1
        subst hm1
        exact h1 hlt
  · intro st ingredient p hfind
    have hstep : updatePantryForRecipe [ingredient] st =
        recipeIngredientStep st.pantry st ingredient := rfl
    rw [hstep]
    simp only [recipeIngredientStep, hfind]
    rcases hm : p.minQuantity with _ | m <;>
      simp only [hm, truthyOpt, Option.getD_some, Option.getD_none]
    · by_cases h0 : max 0 (p.quantity - ingredient.quantity) = 0
      · rw [if_pos (by simp [h0])]
        exact iff_of_true (by simp [addShoppingItem]) (Or.inl h0)
      · rw [if_neg (by simp [h0])]
        refine iff_of_false (by simp) ?_
        rintro (h | ⟨-, m1, hm1, -⟩)
        · exact h0 h
        · cases hm1
    · by_cases h0 : max 0 (p.quantity - ingredient.quantity) = 0
      · rw [if_pos (by simp [h0])]
        exact iff_of_true (by simp [addShoppingItem]) (Or.inl h0)
      · by_cases hm0 : m = 0
        · rw [if_neg (by simp [h0, hm0])]
          refine iff_of_false (by simp) ?_
          rintro (h | ⟨-, m1, hm1, hne, -⟩)
          · exact h0 h
          · rw [Option.some.injEq] at hm1
            subst hm1
            exact hne hm0
        · by_cases h2 : max 0 (p.quantity - ingredient.quantity) ≤ m
          · cases hs : p.isStaple
            · rw [if_neg (by simp [h0, hs])]
              refine iff_of_false (by simp) ?_
              rintro (h | ⟨hcontr, -⟩)
              · exact h0 h
              · simp [hs] at hcontr
            · rw [if_pos (by simp [hs, hm0, h2])]
              exact iff_of_true (by simp [addShoppingItem])
                (Or.inr ⟨rfl, m, rfl, hm0, h2⟩)
          · rw [if_neg (by simp [h0, h2])]
            refine iff_of_false (by simp) ?_
            rintro (h | ⟨-, m1, hm1, -, hle⟩)
            · exact h0 h
            · rw [Option.some.injEq] at hm1
              subst hm1
              exact h2 hle

/-- Witness for C1 (amended): the spec's crossing scenario on
`updatePantryWithUsedItems` — staple rice at 6 with minimum 5, using 2
crosses (6 > 5, 4 ≤ 5) and adds exactly one entry. -/
theorem replenishment_condition_by_path_witness :
    ((updatePantryWithUsedItems [{ name := "Rice", quantity := 2, unit := "cup" }]
        true riceState).shopping).length = riceState.shopping.length + 1 :=
  (replenishment_condition_by_path.1 riceState
      { name := "Rice", quantity := 2, unit := "cup" } riceItem (by decide)).mpr
    ⟨by decide, 5, by decide, by norm_num [riceItem], by norm_num [riceItem]⟩

/-! ## Claim C4: fields of the created replenishment entry. -/

/-- Counterexample to C4: the recipe path is a cooking-reconciliation
path (not the expiry-removal path), yet the entry it creates for the
staple Rice crossing 6→4 below minimum 5 has priority High, where the
claim requires Medium. -/
theorem recipePath_entry_priority_high :
    ((updatePantryForRecipe [{ name := "Rice", quantity := 2, unit := "cup" }]
        riceState).shopping).map (fun w => w.priority) = [Priority.high] ∧
    Priority.high ≠ Priority.medium := by
  decide

/-- C4 as amended: every auto-created entry has `isAutoAdded = true`, but
quantity and priority depend on the path.  `updatePantryWithUsedItems`
creates `{quantity = minQuantity (or 1 when minQuantity = 0), priority
Medium}`; the manual-ingredient path creates `{quantity = minQuantity,
priority Medium}`; `updatePantryForRecipe` creates `{priority High and
quantity = minQuantity-or-1 for staples; priority Medium and quantity =
the ingredient's quantity for the non-staple depleted-to-zero case}`;
the expiry-removal path creates `{quantity = minQuantity (falling back
to the item's quantity), priority High}`. -/
theorem replenishment_entry_fields :
    (∀ (st : PantryState) (u : UsageEntry) (p : PantryItem) (m : ℚ),
      st.pantry.find? (fun q => nameMatch q.name u.name) = some p →
      p.isStaple = true → p.minQuantity = some m → m < p.quantity →
      max 0 (p.quantity - u.quantity) ≤ m →
      ∃ e : ShoppingListItem,
        (updatePantryWithUsedItems [u] true st).shopping = st.shopping ++ [e] ∧
        e.quantity = (if m = 0 then 1 else m) ∧
        e.priority = .medium ∧ e.isAutoAdded = true) ∧
    (∀ (st : PantryState) (u : UsageEntry) (p : PantryItem) (m : ℚ),
      st.pantry.find? (fun q => nameMatch q.name u.name) = some p →
      p.isStaple = true → p.minQuantity = some m → m < p.quantity →
      max 0 (p.quantity - u.quantity) ≤ m →
      ∃ e : ShoppingListItem,
        (updatePantryAfterCookingIngredients [u] true st).shopping =
          st.shopping ++ [e] ∧
        e.quantity = m ∧ e.priority = .medium ∧ e.isAutoAdded = true) ∧
    (∀ (st : PantryState) (ingredient : RecipeIngredient) (p : PantryItem),
      st.pantry.find? (fun q => nameMatch q.name ingredient.name) = some p →
      (max 0 (p.quantity - ingredient.quantity) = 0 ∨
        (p.isStaple = true ∧ truthyOpt p.minQuantity = true ∧
          max 0 (p.quantity - ingredient.quantity) ≤ p.minQuantity.getD 0)) →
      ∃ e : ShoppingListItem,
        (updatePantryForRecipe [ingredient] st).shopping = st.shopping ++ [e] ∧
        e.quantity = (if p.isStaple then jsOrOptQ p.minQuantity 1
                      else ingredient.quantity) ∧
        e.priority = (if p.isStaple then Priority.high else Priority.medium) ∧
        e.isAutoAdded = true) ∧
    (∀ (cutoff : ℚ) (st : PantryState) (p : PantryItem),
      expiredItems cutoff st = [p] → p.isStaple = true →
      ∃ e : ShoppingListItem,
        (removeExpiredItems cutoff true false st).shopping = st.shopping ++ [e] ∧
        e.quantity = jsOrOptQ p.minQuantity p.quantity ∧
        e.priority = .high ∧ e.isAutoAdded = true) := by
  refine ⟨?_, ?_, ?_, ?_⟩
  · intro st u p m hfind hs hm h1 h2
    have hstep : updatePantryWithUsedItems [u] true st =
        usedItemStep true st.pantry st u := rfl
    rw [hstep]
    simp only [usedItemStep, hfind, hm]
    rw [if_pos (by simp [hs, h1, h2])]
    exact ⟨_, rfl, by simp [jsOrOptQ], rfl, rfl⟩
  · intro st u p m hfind hs hm h1 h2
    have hstep : updatePantryAfterCookingIngredients [u] true st =
        cookingIngredientStep true st.pantry st u := rfl
    rw [hstep]
    simp only [cookingIngredientStep, hfind, hm]
    rw [if_pos (by simp [hs, h1, h2])]
    exact ⟨_, rfl, rfl, rfl, rfl⟩
  · intro st ingredient p hfind hfire
    have hstep : updatePantryForRecipe [ingredient] st =
        recipeIngredientStep st.pantry st ingredient := rfl
    rw [hstep]
    simp only [recipeIngredientStep, hfind]
    rw [if_pos ?hc]
    case hc =>
      rcases hfire with h0 | ⟨hs, ht, hle⟩
      · simp [h0]
      · simp [hs, ht, hle]
    exact ⟨_, rfl, rfl, rfl, rfl⟩
  · intro cutoff st p hexp hs
    have hstep : removeExpiredItems cutoff true false st =
        expiredStep true false st p := by
      rw [removeExpiredItems, hexp]
      rfl
    rw [hstep]
    simp only [expiredStep, hs]
    exact ⟨_, rfl, rfl, rfl, rfl⟩

/-- Witness for C4 (amended): the rice crossing on
`updatePantryWithUsedItems` creates a Medium-priority auto-added entry
replenishing to the minimum quantity 5. -/
theorem replenishment_entry_fields_witness :
    ∃ e : ShoppingListItem,
      (updatePantryWithUsedItems [{ name := "Rice", quantity := 2, unit := "cup" }]
          true riceState).shopping = riceState.shopping ++ [e] ∧
      e.quantity = (if (5 : ℚ) = 0 then 1 else 5) ∧
      e.priority = .medium ∧ e.isAutoAdded = true :=
  replenishment_entry_fields.1 riceState
    { name := "Rice", quantity := 2, unit := "cup" } riceItem 5
    (by decide) (by decide) (by decide) (by norm_num [riceItem])
    (by norm_num [riceItem])

/-! ## Claim C5: optional ingredients. -/

/-- Counterexample to C5: an optional recipe ingredient is still
processed by `updatePantryForRecipe` — the optional Cheese usage of 2
drops the matching stock quantity from 5 to 3 instead of leaving it
unchanged. -/
theorem recipePath_decrements_optional :
    ((updatePantryForRecipe
        [{ name := "Cheese", quantity := 2, unit := "slice", isOptional := true }]
        cheeseState).pantry).map (fun p => p.quantity) = [3] ∧
    (3 : ℚ) ≠ 5 := by
  decide

/-- Helper: a fold whose step skips elements satisfying `p` computes the
same result over the `!p` filtration of the list. -/
theorem foldl_filter_not {α β : Type} (p : α → Bool) (g : β → α → β) :
    ∀ (l : List α) (acc : β),
      l.foldl (fun acc a => if p a then acc else g acc a) acc =
        (l.filter fun a => !p a).foldl
          (fun acc a => if p a then acc else g acc a) acc := by
  intro l
  induction l with
  | nil => intro acc; rfl
  | cons a l ih =>
    intro acc
    by_cases h : p a = true <;> simp [List.filter_cons, h, ih]

/-- C5 as amended: `updatePantryForRecipe` itself ignores the
`isOptional` flag entirely — its effect is unchanged under arbitrarily
rewriting the flags, so optional ingredients are decremented (and can
trigger its replenishment guard) exactly like required ones; only the
tool-level change report and reported shopping-list additions of
`updatePantryAfterCooking` are restricted to non-optional
ingredients. -/
theorem recipe_isOptional_handling :
    (∀ (ingredients : List RecipeIngredient) (st : PantryState) (b : Bool),
      updatePantryForRecipe (ingredients.map fun i => { i with isOptional := b }) st =
        updatePantryForRecipe ingredients st) ∧
    (∀ (ingredients : List RecipeIngredient) (pantryBefore pantryAfter : List PantryItem),
      cookingChanges ingredients pantryBefore pantryAfter =
        cookingChanges (ingredients.filter fun i => !i.isOptional)
          pantryBefore pantryAfter) ∧
    (∀ (b : Bool) (ingredients : List RecipeIngredient)
       (pantryBefore pantryAfter : List PantryItem),
      cookingReportedAdds b ingredients pantryBefore pantryAfter =
        cookingReportedAdds b (ingredients.filter fun i => !i.isOptional)
          pantryBefore pantryAfter) := by
  refine ⟨?_, ?_, ?_⟩
  · intro ingredients st b
    rw [updatePantryForRecipe, updatePantryForRecipe, List.foldl_map]
    rfl
  · intro ingredients pantryBefore pantryAfter
    exact foldl_filter_not _ _ ingredients []
  · intro b ingredients pantryBefore pantryAfter
    exact foldl_filter_not _ _ ingredients []

/-! ## Claim C2: nonnegativity of stock quantities. -/

/-- A non-staple eggs record with quantity 5. -/
def eggs5Item : PantryItem :=
  { id := "item_1", name := "Eggs", quantity := 5, unit := "count",
    category := "Dairy & Eggs" }

/-- A pantry holding only `eggs5Item`. -/
def eggs5State : PantryState := { pantry := [eggs5Item], shopping := [] }

/-- Counterexample to C2: `addPantryItem` accepts a negative quantity
argument and, on an existing item, stores the unclamped sum — adding
quantity −10 to the 5 eggs leaves a stock quantity of −5 < 0. -/
theorem addPantryItem_negative_breaks_invariant :
    (∀ p ∈ eggs5State.pantry, 0 ≤ p.quantity) ∧
    ((addPantryItem
        { name := "Eggs", quantity := -10, unit := "count",
          category := "Dairy & Eggs" } eggs5State).pantry).map
      (fun p => p.quantity) = [-5] ∧
    ¬(0 ≤ (-5 : ℚ)) := by
  decide

/-- Every stock quantity is nonnegative. -/
def PantryNonneg (st : PantryState) : Prop :=
  ∀ p ∈ st.pantry, 0 ≤ p.quantity

/-- Rewriting one quantity to a nonnegative value preserves
nonnegativity of a pantry list. -/
theorem nonneg_updateQuantity {items : List PantryItem} {q : ℚ} (id : String)
    (h : ∀ p ∈ items, 0 ≤ p.quantity) (hq : 0 ≤ q) :
    ∀ p ∈ updateQuantity items id q, 0 ≤ p.quantity := by
  intro p hp
  rw [updateQuantity, List.mem_map] at hp
  obtain ⟨a, ha, rfl⟩ := hp
  by_cases hid : (a.id == id) = true
  · rw [if_pos hid]
    exact hq
  · rw [if_neg hid]
    exact h a ha

/-- A fold preserves an invariant its step preserves, given a
per-element side condition. -/
theorem foldl_inv {σ α : Type} {P : σ → Prop} {Q : α → Prop} {f : σ → α → σ}
    (hstep : ∀ s a, Q a → P s → P (f s a)) :
    ∀ (l : List α), (∀ a ∈ l, Q a) → ∀ s, P s → P (l.foldl f s) := by
  intro l
  induction l with
  | nil => exact fun _ s hs => hs
  | cons a l ih =>
    intro hQ s hs
    exact ih (fun x hx => hQ x (List.mem_cons_of_mem a hx)) (f s a)
      (hstep s a (hQ a (List.mem_cons_self a l)) hs)

/-- The `updatePantryWithUsedItems` step preserves nonnegativity: it only
ever writes `max 0 ⬝`. -/
theorem usedItemStep_nonneg (b : Bool) (snapshot : List PantryItem)
    (u : UsageEntry) {st : PantryState} (h : PantryNonneg st) :
    PantryNonneg (usedItemStep b snapshot st u) := by
  rcases hfind : snapshot.find? (fun q => nameMatch q.name u.name) with _ | p <;>
    simp only [usedItemStep, hfind]
  · exact h
  · split
    · exact fun q hq => nonneg_updateQuantity _ h (le_max_left _ _) q hq
    · exact fun q hq => nonneg_updateQuantity _ h (le_max_left _ _) q hq

/-- The manual-ingredient cooking step preserves nonnegativity. -/
theorem cookingIngredientStep_nonneg (b : Bool) (snapshot : List PantryItem)
    (u : UsageEntry) {st : PantryState} (h : PantryNonneg st) :
    PantryNonneg (cookingIngredientStep b snapshot st u) := by
  rcases hfind : snapshot.find? (fun q => nameMatch q.name u.name) with _ | p <;>
    simp only [cookingIngredientStep, hfind]
  · exact h
  · split
    · split
      · exact fun q hq => nonneg_updateQuantity _ h (le_max_left _ _) q hq
      · exact fun q hq => nonneg_updateQuantity _ h (le_max_left _ _) q hq
    · exact fun q hq => nonneg_updateQuantity _ h (le_max_left _ _) q hq

/-- The recipe-path step preserves nonnegativity. -/
theorem recipeIngredientStep_nonneg (snapshot : List PantryItem)
    (ingredient : RecipeIngredient) {st : PantryState} (h : PantryNonneg st) :
    PantryNonneg (recipeIngredientStep snapshot st ingredient) := by
  rcases hfind : snapshot.find? (fun q => nameMatch q.name ingredient.name) with _ | p <;>
    simp only [recipeIngredientStep, hfind]
  · exact h
  · split
    · exact fun q hq => nonneg_updateQuantity _ h (le_max_left _ _) q hq
    · exact fun q hq => nonneg_updateQuantity _ h (le_max_left _ _) q hq

/-- The `updatePantryItems` step preserves nonnegativity: decrements are
clamped at zero and creation only happens for positive quantities. -/
theorem updatePantryItemsStep_nonneg (item : UsageEntry) {st : PantryState}
    (h : PantryNonneg st) : PantryNonneg (updatePantryItemsStep st item) := by
  rcases hfind : st.pantry.find? (fun i => nameMatch i.name item.name) with _ | p <;>
    simp only [updatePantryItemsStep, hfind]
  · by_cases hpos : item.quantity > 0
    · rw [if_pos hpos]
      intro q hq
      rcases List.mem_append.mp hq with hq | hq
      · exact h q hq
      · rw [List.mem_singleton] at hq
        subst hq
        exact le_of_lt hpos
    · rw [if_neg hpos]
      exact h
  · exact fun q hq => nonneg_updateQuantity _ h (le_max_left _ _) q hq

/-- The purchased-transfer step preserves nonnegativity provided the
transferred shopping quantity is nonnegative. -/
theorem purchasedStep_nonneg {st : PantryState} {w : ShoppingListItem}
    (hw : 0 ≤ w.quantity) (h : PantryNonneg st) :
    PantryNonneg (purchasedStep st w) := by
  rcases hfind : st.pantry.find? (fun p => nameMatch p.name w.name) with _ | p <;>
    simp only [purchasedStep, hfind]
  · intro q hq
    rcases List.mem_append.mp hq with hq | hq
    · exact h q hq
    · rw [List.mem_singleton] at hq
      subst hq
      exact hw
  · intro q hq
    exact nonneg_updateQuantity _ h
      (add_nonneg (h p (List.mem_of_find?_eq_some hfind)) hw) q hq

/-- C2 as amended: every stock-writing operation except `addPantryItem`
preserves the quantity ≥ 0 invariant for all accepted inputs, including
negative quantity arguments (`updatePantryItems` clamps at zero);
`addPantryItem` preserves it only when its quantity argument is ≥ 0 (a
negative argument on an existing item stores the unclamped sum), and
`addPurchasedItemsToPantry` when the purchased shopping-list quantities
are themselves ≥ 0. -/
theorem stock_nonneg_preservation :
    (∀ (st : PantryState) (entries : List UsageEntry), PantryNonneg st →
      PantryNonneg (updatePantryItems entries st)) ∧
    (∀ (st : PantryState) (entries : List UsageEntry) (b : Bool), PantryNonneg st →
      PantryNonneg (updatePantryWithUsedItems entries b st)) ∧
    (∀ (st : PantryState) (entries : List UsageEntry) (b : Bool), PantryNonneg st →
      PantryNonneg (updatePantryAfterCookingIngredients entries b st)) ∧
    (∀ (st : PantryState) (ingredients : List RecipeIngredient), PantryNonneg st →
      PantryNonneg (updatePantryForRecipe ingredients st)) ∧
    (∀ (st : PantryState) (args : AddPantryArgs), PantryNonneg st →
      0 ≤ args.quantity → PantryNonneg (addPantryItem args st)) ∧
    (∀ st : PantryState, PantryNonneg st →
      (∀ w ∈ st.shopping, w.isPurchased = true → 0 ≤ w.quantity) →
      PantryNonneg (addPurchasedItemsToPantry st)) := by
  refine ⟨?_, ?_, ?_, ?_, ?_, ?_⟩
  · intro st entries h
    exact foldl_inv (Q := fun _ => True)
      (fun s a _ hs => updatePantryItemsStep_nonneg a hs) entries
      (fun _ _ => trivial) st h
  · intro st entries b h
    exact foldl_inv (Q := fun _ => True)
      (fun s a _ hs => usedItemStep_nonneg b st.pantry a hs) entries
      (fun _ _ => trivial) st h
  · intro st entries b h
    exact foldl_inv (Q := fun _ => True)
      (fun s a _ hs => cookingIngredientStep_nonneg b st.pantry a hs) entries
      (fun _ _ => trivial) st h
  · intro st ingredients h
    exact foldl_inv (Q := fun _ => True)
      (fun s a _ hs => recipeIngredientStep_nonneg st.pantry a hs) ingredients
      (fun _ _ => trivial) st h
  · intro st args h hq
    rcases hfind : st.pantry.find? (fun item => nameMatch item.name args.name)
      with _ | p <;> simp only [addPantryItem, hfind]
    · intro q hmem
      rcases List.mem_append.mp hmem with hmem | hmem
      · exact h q hmem
      · rw [List.mem_singleton] at hmem
        subst hmem
        exact hq
    · intro q hmem
      rw [List.mem_map] at hmem
      obtain ⟨a, ha, rfl⟩ := hmem
      by_cases hid : (a.id == p.id) = true
      · rw [if_pos hid]
        exact add_nonneg (h p (List.mem_of_find?_eq_some hfind)) hq
      · rw [if_neg hid]
        exact h a ha
  · intro st h hshop
    exact foldl_inv (Q := fun w => 0 ≤ w.quantity)
      (fun s w hw hs => purchasedStep_nonneg hw hs)
      (st.shopping.filter fun item => item.isPurchased)
      (fun w hw => hshop w (List.mem_of_mem_filter hw) (List.of_mem_filter hw)) st h

/-- Witness for C2 (amended): removing 3 eggs from the 12-egg pantry via
`updatePantryItems` keeps every quantity nonnegative. -/
theorem stock_nonneg_preservation_witness :
    PantryNonneg
      (updatePantryItems [{ name := "Eggs", quantity := -3, unit := "count" }]
        eggsState) :=
  stock_nonneg_preservation.1 eggsState
    [{ name := "Eggs", quantity := -3, unit := "count" }]
    (by unfold PantryNonneg; decide)

/-! ## Claim C6: purchased-items transfer. -/

/-- A purchased shopping-list record matching `cheeseItem` by name. -/
def purchasedCheese : ShoppingListItem :=
  { id := "shopping_3", name := "Cheese", quantity := 1, unit := "package",
    category := "Dairy & Eggs", priority := .high, isPurchased := true,
    isAutoAdded := true }

/-- A state whose shopping list has exactly one purchased item. -/
def shopState : PantryState :=
  { pantry := [cheeseItem], shopping := [purchasedCheese] }

/-- C6: `addPurchasedItemsToPantry` is the identity when nothing is
purchased (so repeated calls are no-ops), and a purchased item is merged
into the pantry — incrementing the case-insensitively matching item, or
creating a new non-staple item — and then removed from the shopping
list. -/
theorem addPurchasedItems_spec :
    (∀ st : PantryState, (∀ i ∈ st.shopping, i.isPurchased = false) →
      addPurchasedItemsToPantry st = st ∧
      addPurchasedItemsToPantry (addPurchasedItemsToPantry st) = st) ∧
    (∀ (st : PantryState) (w : ShoppingListItem),
      st.shopping.filter (fun i => i.isPurchased) = [w] →
      (addPurchasedItemsToPantry st).shopping =
        st.shopping.filter (fun i => !(i.id == w.id)) ∧
      ((∃ p, st.pantry.find? (fun q => nameMatch q.name w.name) = some p ∧
          (addPurchasedItemsToPantry st).pantry =
            updateQuantity st.pantry p.id (p.quantity + w.quantity)) ∨
       (st.pantry.find? (fun q => nameMatch q.name w.name) = none ∧
        ∃ newItem : PantryItem,
          (addPurchasedItemsToPantry st).pantry = st.pantry ++ [newItem] ∧
          newItem.name = w.name ∧ newItem.quantity = w.quantity ∧
          newItem.isStaple = false))) := by
  constructor
  · intro st hnone
    have hfilter : st.shopping.filter (fun i => i.isPurchased) = [] := by
      rw [List.filter_eq_nil_iff]
      intro a ha
      simp [hnone a ha]
    have h1 : addPurchasedItemsToPantry st = st := by
      rw [addPurchasedItemsToPantry, hfilter]
      rfl
    exact ⟨h1, by rw [h1, h1]⟩
  · intro st w hfilter
    have hstep : addPurchasedItemsToPantry st = purchasedStep st w := by
      rw [addPurchasedItemsToPantry, hfilter]
      rfl
    rw [hstep]
    rcases hfind : st.pantry.find? (fun q => nameMatch q.name w.name) with _ | p
    · have hsh : (purchasedStep st w).shopping =
          st.shopping.filter (fun i => !(i.id == w.id)) := by
        simp only [purchasedStep, hfind]
      have hpn : (purchasedStep st w).pantry =
          st.pantry ++
            [{ id := freshId st.nextId, name := w.name, quantity := w.quantity,
               unit := w.unit, category := w.category, location := "Pantry",
               isStaple := false, notes := w.notes }] := by
        simp only [purchasedStep, hfind]
      exact ⟨hsh, Or.inr ⟨hfind, _, hpn, rfl, rfl, rfl⟩⟩
    · have hsh : (purchasedStep st w).shopping =
          st.shopping.filter (fun i => !(i.id == w.id)) := by
        simp only [purchasedStep, hfind]
      have hpn : (purchasedStep st w).pantry =
          updateQuantity st.pantry p.id (p.quantity + w.quantity) := by
        simp only [purchasedStep, hfind]
      exact ⟨hsh, Or.inl ⟨p, hfind, hpn⟩⟩

/-- Witness for C6: no purchased items on `eggsState`'s empty shopping
list, so the operation is a no-op; and the purchased Cheese of
`shopState` both merges (quantity 5 + 1) and leaves the shopping list
empty. -/
theorem addPurchasedItems_spec_witness :
    addPurchasedItemsToPantry eggsState = eggsState ∧
    (addPurchasedItemsToPantry shopState).shopping = [] ∧
    (addPurchasedItemsToPantry shopState).pantry =
      updateQuantity shopState.pantry cheeseItem.id (5 + 1) := by
  refine ⟨(addPurchasedItems_spec.1 eggsState (by decide)).1, ?_, ?_⟩
  · have h := (addPurchasedItems_spec.2 shopState purchasedCheese (by decide)).1
    rw [h]
    decide
  · rcases (addPurchasedItems_spec.2 shopState purchasedCheese (by decide)).2 with
      ⟨p, hp, hres⟩ | ⟨hnone, -⟩
    · have hp2 : cheeseItem = p :=
        Option.some.inj
          ((by decide : shopState.pantry.find?
              (fun q => nameMatch q.name purchasedCheese.name) =
                some cheeseItem).symm.trans hp)

      rw [hres, ← hp2]
      rfl
    · exact absurd hnone (by decide)

/-- Witness for C10: adding staple rice (quantity 6, no `minQuantity`
argument) to the cheese-only pantry stores `minQuantity = ⌈6·0.2⌉ = 2`. -/
theorem addPantryItem_minQuantity_default_witness :
    ∃ newItem : PantryItem,
      (addPantryItem
          { name := "Rice", quantity := 6, unit := "cup",
            category := "Grains", isStaple := true } cheeseState).pantry =
        cheeseState.pantry ++ [newItem] ∧
      newItem.name = "Rice" ∧
      newItem.quantity = 6 ∧
      ((true : Bool) = true → ((none : Option ℚ) = none ∨ (none : Option ℚ) = some 0) →
        newItem.minQuantity = some (jsCeil ((6 : ℚ) * 0.2))) ∧
      ((true : Bool) = false → newItem.minQuantity = none) :=
  addPantryItem_minQuantity_default cheeseState
    { name := "Rice", quantity := 6, unit := "cup",
      category := "Grains", isStaple := true } (by decide)

end

end Pantry
